import Mathlib

/-!
Shallow embedding of the blades federated-learning framework
(src/blades/adversaries/adversary.py and src/fllib/algorithms/algorithm.py).

Python objects and dicts are modelled as association lists over `String`
keys; tensors are modelled as lists of integer rows; fallible code returns
`Except String`.  Components of the repository that are referenced but not
present under src/ (the Client class, ClientManager, DatasetCatalog and
AlgorithmConfig) are modelled from the specification and say so in their
doc comments.
-/

/-- A Python-like runtime value: None, a boolean, a natural number, a
string, or a resource dict (a mapping from names to counts, used for
`custom_resources_per_worker`). -/
inductive PyVal where
  | pynone : PyVal
  | pybool : Bool → PyVal
  | pynat : Nat → PyVal
  | pystr : String → PyVal
  | pyres : List (String × Nat) → PyVal
deriving DecidableEq

/-- Assignment of a key in a Python dict or object `__dict__`: overwrite in
place when the key is present, append when it is new. -/
def setEntry {α : Type} : List (String × α) → String → α → List (String × α)
  | [], k, v => [(k, v)]
  | p :: ps, k, v => if p.1 == k then (k, v) :: ps else p :: setEntry ps k v

/-- Lookup of a key in a Python dict or object `__dict__`. -/
def getEntry {α : Type} : List (String × α) → String → Option α
  | [], _ => none
  | p :: ps, k => if p.1 == k then some p.2 else getEntry ps k

/-- Python `d.update(m)` and `dict(d, **m)`: every entry of `m` is written
into `d`, entries of `m` winning. -/
def dictMerge {α : Type} (d m : List (String × α)) : List (String × α) :=
  m.foldl (fun a kv => setEntry a kv.1 kv.2) d

theorem getEntry_setEntry_self {α : Type} (d : List (String × α)) (k : String) (v : α) :
    getEntry (setEntry d k v) k = some v := by
  induction d with
  | nil => simp [setEntry, getEntry]
  | cons p ps ih =>
    by_cases h : p.1 = k
    · simp [setEntry, getEntry, h]
    · simp [setEntry, getEntry, h, ih]

theorem getEntry_setEntry_ne {α : Type} (d : List (String × α)) (k k2 : String) (v : α)
    (h : k2 ≠ k) : getEntry (setEntry d k v) k2 = getEntry d k2 := by
  induction d with
  | nil =>
    simp [setEntry, getEntry]
    exact fun hh => h hh.symm
  | cons p ps ih =>
    by_cases hp : p.1 = k
    · simp [setEntry, getEntry, hp, h.symm]
    · by_cases hp2 : p.1 = k2
      · simp [setEntry, getEntry, hp, hp2, h]
      · simp [setEntry, getEntry, hp, hp2, ih]

/-- A pseudo-gradient: the update a client reports after local training,
modelled as one row of integers (torch tensor numerics are out of scope). -/
abbrev Update := List Int

/-- One per-client result record of the current round:
`result["id"]` is `id` and `result.get(CLIENT_UPDATE, None)` is `update`
(`none` models both a missing CLIENT_UPDATE key and a stored None). -/
structure ClientResult where
  id : Nat
  update : Option Update
deriving DecidableEq

/-- A simulated client, carrying its `is_malicious` flag and whether its
independent local-training path is enabled. -/
structure Client where
  is_malicious : Bool
  local_training : Bool
deriving DecidableEq

/-- Modelled from the spec: `ClientManager` (fllib/algorithms/client_manager.py
is not under src/) is a mapping from client id to Client object. -/
abbrev ClientManager := List (Nat × Client)

/-- Modelled from the spec: `ClientManager.get_client_by_id` looks a client
up by its id in the mapping. -/
def get_client_by_id : ClientManager → Nat → Option Client
  | [], _ => none
  | p :: ps, i => if p.1 == i then some p.2 else get_client_by_id ps i

/-- The collection loop of `Adversary.get_benign_updates`: for each result
in `algorithm.local_results`, in order, the pseudo-gradient is read with
`result.get(CLIENT_UPDATE, None)`, the owning client is looked up by id
(a failed lookup is an error), and the pseudo-gradient is kept exactly when
it is not None and the client is not malicious. -/
def benignLoop (cm : ClientManager) : List ClientResult → Except String (List Update)
  | [] => Except.ok []
  | r :: rs =>
    match get_client_by_id cm r.id with
    | none => Except.error "KeyError: unknown client id"
    | some c =>
      match benignLoop cm rs with
      | Except.error e => Except.error e
      | Except.ok rest =>
        match r.update with
        | some g => Except.ok (if c.is_malicious then rest else g :: rest)
        | none => Except.ok rest

/-- The message of the ValueError raised by `Adversary.get_benign_updates`
when the collected list is empty (the two source string literals are
adjacent, hence the missing space). -/
def noBenignMsg : String :=
  "No benign updates found. To use this adversary,you must have at least one benign client."

/-- `Adversary.get_benign_updates`: collects the benign pseudo-gradients of
the round, raises ValueError when none were collected, and otherwise
returns `torch.vstack(updates)`, modelled as the list of collected rows. -/
def Adversary.get_benign_updates (cm : ClientManager) (local_results : List ClientResult) :
    Except String (List Update) :=
  match benignLoop cm local_results with
  | Except.error e => Except.error e
  | Except.ok updates =>
    if updates.isEmpty then Except.error noBenignMsg else Except.ok updates

/-- The rows `get_benign_updates` keeps, stated directly: for each result in
order, its pseudo-gradient when that is present and the owning client is
found and benign. -/
def benignRows (cm : ClientManager) (results : List ClientResult) : List Update :=
  results.filterMap (fun r =>
    match get_client_by_id cm r.id with
    | some c => if c.is_malicious then none else r.update
    | none => none)

/-- How many of the collected results belong to malicious clients. -/
def maliciousCount (cm : ClientManager) (results : List ClientResult) : Nat :=
  (results.filter (fun r =>
    match get_client_by_id cm r.id with
    | some c => c.is_malicious
    | none => false)).length

theorem benignLoop_eq_rows (cm : ClientManager) (results : List ClientResult)
    (hid : ∀ r ∈ results, get_client_by_id cm r.id ≠ none) :
    benignLoop cm results = Except.ok (benignRows cm results) := by
  induction results with
  | nil => rfl
  | cons r rs ih =>
    have hr : get_client_by_id cm r.id ≠ none := hid r (by simp)
    obtain ⟨c, hc⟩ := Option.ne_none_iff_exists.mp hr
    have ihh := ih (fun x hx => hid x (by simp [hx]))
    cases hmal : c.is_malicious <;> cases hupd : r.update <;>
      simp [benignLoop, benignRows, ← hc, ihh, hmal, hupd]

theorem benignRows_length (cm : ClientManager) (results : List ClientResult)
    (hid : ∀ r ∈ results, get_client_by_id cm r.id ≠ none)
    (hupd : ∀ r ∈ results, r.update ≠ none) :
    (benignRows cm results).length + maliciousCount cm results = results.length := by
  induction results with
  | nil => rfl
  | cons r rs ih =>
    have hr : get_client_by_id cm r.id ≠ none := hid r (by simp)
    obtain ⟨c, hc⟩ := Option.ne_none_iff_exists.mp hr
    have hu : r.update ≠ none := hupd r (by simp)
    obtain ⟨g, hg⟩ := Option.ne_none_iff_exists.mp hu
    have ihh := ih (fun x hx => hid x (by simp [hx])) (fun x hx => hupd x (by simp [hx]))
    cases hmal : c.is_malicious <;>
      simp [benignRows, maliciousCount, ← hc, hmal, ← hg] at ihh ⊢ <;>
      omega

/-- Claim C1, amended: over a round in which every collected result carries a
non-None pseudo-gradient and every result id resolves to a client, with N
collected results of which M belong to malicious clients,
`Adversary.get_benign_updates` returns the stack of exactly N − M rows, each
row the recorded pseudo-gradient of the corresponding benign client in the
iteration order of `algorithm.local_results`, and raises ValueError when
N − M = 0. -/
theorem C1_amended_getBenignUpdates (cm : ClientManager) (results : List ClientResult)
    (hid : ∀ r ∈ results, get_client_by_id cm r.id ≠ none)
    (hupd : ∀ r ∈ results, r.update ≠ none) :
    (maliciousCount cm results < results.length →
      Adversary.get_benign_updates cm results = Except.ok (benignRows cm results) ∧
      (benignRows cm results).length = results.length - maliciousCount cm results) ∧
    (maliciousCount cm results = results.length →
      Adversary.get_benign_updates cm results = Except.error noBenignMsg) := by
  have hloop := benignLoop_eq_rows cm results hid
  have hlen := benignRows_length cm results hid hupd
  constructor
  · intro hlt
    have hne : (benignRows cm results).isEmpty = false := by
      cases hrows : benignRows cm results
      · rw [hrows] at hlen
        simp at hlen
        omega
      · rfl
    constructor
    · simp [Adversary.get_benign_updates, hloop, hne]
    · omega
  · intro heq
    have hz : benignRows cm results = [] := by
      cases hrows : benignRows cm results with
      | nil => rfl
      | cons a l =>
        rw [hrows] at hlen
        simp at hlen
        omega
    simp [Adversary.get_benign_updates, hloop, hz]

/-- Two benign clients, used by the C1 counterexample. -/
def cmC1 : ClientManager := [(0, ⟨false, true⟩), (1, ⟨false, true⟩)]

/-- A round where benign client 0 delivered no pseudo-gradient and benign
client 1 delivered one, used by the C1 counterexample. -/
def resC1 : List ClientResult := [⟨0, none⟩, ⟨1, some [5]⟩]

/-- Claim C1, counterexample: a round with N = 2 collected per-client
results and M = 0 of them malicious, on which `get_benign_updates` returns
a stack with 1 row, not N − M = 2 rows as the claim states, because client
0 contributed no pseudo-gradient. -/
theorem C1_cex :
    Adversary.get_benign_updates cmC1 resC1 = Except.ok [[(5 : Int)]] ∧
    resC1.length = 2 ∧ maliciousCount cmC1 resC1 = 0 ∧
    ¬ ([[(5 : Int)]].length = resC1.length - maliciousCount cmC1 resC1) :=
  ⟨rfl, rfl, rfl, by decide⟩

/-- Three clients, the third malicious, used by the C1 witness. -/
def cmC1w : ClientManager := [(0, ⟨false, true⟩), (1, ⟨false, true⟩), (2, ⟨true, true⟩)]

/-- A full round of results for the C1 witness. -/
def resC1w : List ClientResult := [⟨0, some [1]⟩, ⟨1, some [2]⟩, ⟨2, some [9]⟩]

/-- Witness for the amended C1 theorem at a concrete round: N = 3, M = 1,
the stack has the two benign rows in order. -/
theorem C1_witness :
    Adversary.get_benign_updates cmC1w resC1w = Except.ok [[(1 : Int)], [(2 : Int)]] ∧
    (benignRows cmC1w resC1w).length = resC1w.length - maliciousCount cmC1w resC1w := by
  have h := (C1_amended_getBenignUpdates cmC1w resC1w (by decide) (by decide)).1 (by decide)
  refine ⟨?_, h.2⟩
  rw [h.1]
  rfl

/-- Claim C9: `get_benign_updates` skips every result whose pseudo-gradient
entry is absent or None even when the owning client is benign (the kept
rows are exactly `benignRows`, which drops such results), and the
ValueError is raised exactly when no benign client contributed a non-None
pseudo-gradient. -/
theorem C9_skipAbsentUpdates (cm : ClientManager) (results : List ClientResult)
    (hid : ∀ r ∈ results, get_client_by_id cm r.id ≠ none) :
    (benignRows cm results ≠ [] →
      Adversary.get_benign_updates cm results = Except.ok (benignRows cm results)) ∧
    (Adversary.get_benign_updates cm results = Except.error noBenignMsg ↔
      benignRows cm results = []) := by
  have hloop := benignLoop_eq_rows cm results hid
  constructor
  · intro hne
    have hemp : (benignRows cm results).isEmpty = false := by
      cases h : benignRows cm results
      · exact absurd h hne
      · rfl
    simp [Adversary.get_benign_updates, hloop, hemp]
  · constructor
    · intro herr
      by_contra hne
      have hemp : (benignRows cm results).isEmpty = false := by
        cases h : benignRows cm results
        · exact absurd h hne
        · rfl
      simp [Adversary.get_benign_updates, hloop, hemp] at herr
    · intro hz
      simp [Adversary.get_benign_updates, hloop, hz]

/-- One benign and one malicious client, used by the C9 witness. -/
def cmC9 : ClientManager := [(0, ⟨false, true⟩), (1, ⟨true, true⟩)]

/-- A round where the benign client contributed no pseudo-gradient while
the malicious one did, used by the C9 witness. -/
def resC9 : List ClientResult := [⟨0, none⟩, ⟨1, some [3]⟩]

/-- Witness for C9 at a concrete round: the ValueError fires although not
every client is malicious, because the only benign result holds no
pseudo-gradient. -/
theorem C9_witness :
    Adversary.get_benign_updates cmC9 resC9 = Except.error noBenignMsg ∧
    maliciousCount cmC9 resC9 ≠ resC9.length := by
  refine ⟨?_, by decide⟩
  exact (C9_skipAbsentUpdates cmC9 resC9 (by decide)).2.mpr (by decide)

/-- Modelled from the spec: `Client.to_malicious` (the Client class is not
under src/) flips the client into malicious mode; passing
`local_training=False` disables its independent local-training path. -/
def Client.to_malicious (c : Client) (local_training : Bool) : Client :=
  { c with is_malicious := true, local_training := local_training }

/-- `Adversary.on_algorithm_start`: calls `client.to_malicious(local_training=False)`
on every client owned by the adversary; the world of all clients is keyed
by id and the owned clients are the entries whose id is in the adversary's
list. -/
def Adversary.on_algorithm_start (owned : List Nat) (world : ClientManager) : ClientManager :=
  world.map (fun p => if p.1 ∈ owned then (p.1, p.2.to_malicious false) else p)

/-- Claim C4: after `on_algorithm_start`, every client owned by the
adversary has been converted via `to_malicious` (its `is_malicious` flag is
true and its independent local training is disabled) and every client not
in the owned list is unchanged. -/
theorem C4_onAlgorithmStart (owned : List Nat) (world : ClientManager) (i : Nat) :
    get_client_by_id (Adversary.on_algorithm_start owned world) i =
      (get_client_by_id world i).map
        (fun c => if i ∈ owned then c.to_malicious false else c) ∧
    ∀ c : Client, (c.to_malicious false).is_malicious = true ∧
      (c.to_malicious false).local_training = false := by
  refine ⟨?_, fun c => ⟨rfl, rfl⟩⟩
  induction world with
  | nil => rfl
  | cons p ps ih =>
    by_cases hkey : p.1 = i
    · by_cases hmem : p.1 ∈ owned <;>
        simp [Adversary.on_algorithm_start, get_client_by_id, hkey, hkey ▸ hmem]
    · by_cases hmem : p.1 ∈ owned <;>
        simpa [Adversary.on_algorithm_start, get_client_by_id, hkey, hmem] using ih

/-- Modelled from the spec: `AlgorithmConfig`
(fllib/algorithms/algorithm_config.py is not under src/) is a mutable
key-value property bag with `validate()` (base class: no checks) and
`freeze()` (thereafter attribute writes raise). -/
structure AlgorithmConfig where
  attrs : List (String × PyVal)
  frozen : Bool
deriving DecidableEq

/-- Modelled from the spec: base-class `AlgorithmConfig.validate` performs
no cross-field checks. -/
def AlgorithmConfig.validate (c : AlgorithmConfig) : AlgorithmConfig := c

/-- Modelled from the spec: `AlgorithmConfig.freeze` marks the config so
that every later attribute write fails. -/
def AlgorithmConfig.freeze (c : AlgorithmConfig) : AlgorithmConfig :=
  { c with frozen := true }

/-- The error a frozen config raises on an attribute write. -/
def frozenMsg : String := "AttributeError: cannot mutate a frozen AlgorithmConfig"

/-- Modelled from the spec: attribute assignment on an `AlgorithmConfig`
raises once the config is frozen and otherwise stores the value. -/
def AlgorithmConfig.setattr (c : AlgorithmConfig) (k : String) (v : PyVal) :
    Except String AlgorithmConfig :=
  if c.frozen then Except.error frozenMsg
  else Except.ok { c with attrs := setEntry c.attrs k v }

/-- `AdversaryConfig` from src/blades/adversaries/adversary.py: a plain
Python object whose `__dict__` holds `adversary_class` and `global_config`
after `__init__`, plus anything assigned later.  The class defines no
freeze or validate machinery and no `__setattr__` override, so attribute
assignment on it always succeeds. -/
structure AdversaryConfig where
  attrs : List (String × PyVal)
deriving DecidableEq

/-- `AdversaryConfig.__init__(adversary_cls, config)`: stores the adversary
class under `adversary_class` and the config under `global_config`. -/
def AdversaryConfig.init (adversary_cls : PyVal) (config : PyVal) : AdversaryConfig :=
  ⟨[("adversary_class", adversary_cls), ("global_config", config)]⟩

/-- The method table of class `AdversaryConfig` as defined in the source:
these are all the methods the class body declares. -/
def AdversaryConfig.methodNames : List String :=
  ["__init__", "to_dict", "build", "update_from_dict"]

/-- Plain Python attribute assignment on an `AdversaryConfig` object
(`setattr(self, key, value)`); it never fails. -/
def AdversaryConfig.setattr (c : AdversaryConfig) (k : String) (v : PyVal) : AdversaryConfig :=
  ⟨setEntry c.attrs k v⟩

/-- Plain Python attribute read on an `AdversaryConfig` object. -/
def AdversaryConfig.getattr (c : AdversaryConfig) (k : String) : Option PyVal :=
  getEntry c.attrs k

/-- `AdversaryConfig.update_from_dict`: for every key-value pair of the
incoming dict, `setattr(self, key, value)`; returns self (the updated
object, not a copy). -/
def AdversaryConfig.update_from_dict (c : AdversaryConfig) (config_dict : List (String × PyVal)) :
    AdversaryConfig :=
  config_dict.foldl (fun a kv => a.setattr kv.1 kv.2) c

/-- Claim C2, counterexample: `AdversaryConfig` supports no `freeze()`
operation at all — its class body defines only `__init__`, `to_dict`,
`build` and `update_from_dict` — and attribute writes on a freshly built
`AdversaryConfig` always succeed, so the claim that every config class,
including `AdversaryConfig`, supports freezing fails on the code. -/
theorem C2_cex :
    "freeze" ∉ AdversaryConfig.methodNames ∧
    ((AdversaryConfig.init (PyVal.pystr "Adversary") PyVal.pynone).setattr
        "x" (PyVal.pynat 1)).getattr "x" = some (PyVal.pynat 1) := by
  constructor
  · decide
  · rfl

/-- Claim C2, amended: the config that `Algorithm.__init__` validates and
freezes is an `AlgorithmConfig`; once `validate()` and `freeze()` have run,
every subsequent attribute mutation attempt on it raises.  `AdversaryConfig`
however defines no `freeze()` (or `validate()`) method, so it does not take
part in the freeze protocol. -/
theorem C2_amended_freeze (c : AlgorithmConfig) (k : String) (v : PyVal) :
    (c.validate.freeze).setattr k v = Except.error frozenMsg ∧
    "freeze" ∉ AdversaryConfig.methodNames := by
  refine ⟨?_, by decide⟩
  simp [AlgorithmConfig.validate, AlgorithmConfig.freeze, AlgorithmConfig.setattr]

/-- Claim C3: for every `AdversaryConfig` `c`, key `k` and value `v`,
`c.update_from_dict({k: v})` sets attribute `k` on `c` to `v`, even when
`k` was not a previously existing attribute, and returns the same config
object — the result is the updated `c` itself: attribute `k` reads `v` and
every other attribute is exactly as it was on `c`. -/
theorem C3_updateFromDict (c : AdversaryConfig) (k : String) (v : PyVal) :
    (c.update_from_dict [(k, v)]).getattr k = some v ∧
    ∀ k2, k2 ≠ k → (c.update_from_dict [(k, v)]).getattr k2 = c.getattr k2 := by
  constructor
  · exact getEntry_setEntry_self c.attrs k v
  · intro k2 h
    exact getEntry_setEntry_ne c.attrs k k2 v h

/-- Witness for C3 at a concrete config: writing the previously absent
attribute `x` makes it read back, and the attribute `global_config` set by
`__init__` is untouched. -/
theorem C3_witness :
    ((AdversaryConfig.init (PyVal.pystr "Adversary") PyVal.pynone).update_from_dict
        [("x", PyVal.pynat 7)]).getattr "x" = some (PyVal.pynat 7) ∧
    ((AdversaryConfig.init (PyVal.pystr "Adversary") PyVal.pynone).update_from_dict
        [("x", PyVal.pynat 7)]).getattr "global_config" =
      (AdversaryConfig.init (PyVal.pystr "Adversary") PyVal.pynone).getattr "global_config" :=
  ⟨(C3_updateFromDict (AdversaryConfig.init (PyVal.pystr "Adversary") PyVal.pynone)
      "x" (PyVal.pynat 7)).1,
   (C3_updateFromDict (AdversaryConfig.init (PyVal.pystr "Adversary") PyVal.pynone)
      "x" (PyVal.pynat 7)).2 "global_config" (by decide)⟩

/-- A result mapping, as returned by `training_step` and `evaluate`. -/
abbrev ResultDict := List (String × PyVal)

/-- Python `results.update(other)` where `other` may be None: updating a
dict with None raises TypeError (the base `evaluate` returns None), while
updating with a mapping merges it key-wise into `results`. -/
def pyDictUpdate (d : ResultDict) (other : Option ResultDict) : Except String ResultDict :=
  match other with
  | none => Except.error "TypeError: NoneType object is not iterable"
  | some m => Except.ok (dictMerge d m)

/-- `Algorithm.step`: decides whether this iteration also evaluates
(`evaluation_interval` is not None and the 1-indexed iteration count is
divisible by it; an interval of zero is a Python modulo by zero), runs
`training_step()`, and when evaluation is due merges the `evaluate()`
result into the training results.  `training_step` and `evaluate` are
subclass-implemented, so what they return enters as parameters; the base
class returns None from `evaluate`, which is `evalResult = none`. -/
def Algorithm.step (iteration : Nat) (evaluation_interval : Option Nat)
    (trainingResult : ResultDict) (evalResult : Option ResultDict) :
    Except String ResultDict :=
  match evaluation_interval with
  | none => Except.ok trainingResult
  | some e =>
    if e = 0 then Except.error "ZeroDivisionError: integer modulo by zero"
    else if (iteration + 1) % e == 0 then pyDictUpdate trainingResult evalResult
    else Except.ok trainingResult

/-- Whether `step` evaluates this iteration, stated as in the claim:
the interval is set and `(iteration + 1) % interval == 0`. -/
def evalDue (iteration : Nat) (evaluation_interval : Option Nat) : Bool :=
  match evaluation_interval with
  | none => false
  | some e => (iteration + 1) % e == 0

/-- Claim C5: with a positive interval (when one is set) and an
`evaluate()` that returns a metrics mapping `m`, `Algorithm.step` merges
`m` into the returned result mapping exactly when the interval is not None
and `(iteration + 1) % interval == 0`, and in all other cases returns the
result of `training_step()` unchanged. -/
theorem C5_stepEvaluation (i : Nat) (interval : Option Nat) (train m : ResultDict)
    (hpos : ∀ e, interval = some e → 0 < e) :
    Algorithm.step i interval train (some m) =
      Except.ok (if evalDue i interval then dictMerge train m else train) := by
  cases interval with
  | none => rfl
  | some e =>
    have he : 0 < e := hpos e rfl
    have hne : ¬ e = 0 := by omega
    by_cases hdue : (i + 1) % e = 0 <;>
      simp [Algorithm.step, evalDue, pyDictUpdate, hne, hdue]

/-- Witness for C5: at iteration 1 with interval 2 the evaluation metrics
are merged in; at iteration 2 with interval 2 the training result is
returned unchanged. -/
theorem C5_witness :
    Algorithm.step 1 (some 2) [] (some [("acc", PyVal.pynat 9)]) =
      Except.ok [("acc", PyVal.pynat 9)] ∧
    Algorithm.step 2 (some 2) [("loss", PyVal.pynat 3)] (some [("acc", PyVal.pynat 9)]) =
      Except.ok [("loss", PyVal.pynat 3)] := by
  constructor
  · rw [C5_stepEvaluation 1 (some 2) [] [("acc", PyVal.pynat 9)]
      (fun e he => by injection he with h; omega)]
    rfl
  · rw [C5_stepEvaluation 2 (some 2) [("loss", PyVal.pynat 3)] [("acc", PyVal.pynat 9)]
      (fun e he => by injection he with h; omega)]
    rfl

/-- Claim C10: on an iteration where evaluation is due, base-class
`Algorithm.step` raises TypeError, because the base `evaluate()` returns
None and `results.update(None)` raises; on such an iteration `step`
completes exactly when `evaluate` is overridden to return a mapping. -/
theorem C10_stepNoneEvaluate (i e : Nat) (train : ResultDict)
    (he : 0 < e) (hdue : (i + 1) % e = 0) :
    Algorithm.step i (some e) train none =
      Except.error "TypeError: NoneType object is not iterable" ∧
    ∀ m, Algorithm.step i (some e) train (some m) = Except.ok (dictMerge train m) := by
  have hne : ¬ e = 0 := by omega
  exact ⟨by simp [Algorithm.step, pyDictUpdate, hne, hdue],
    fun m => by simp [Algorithm.step, pyDictUpdate, hne, hdue]⟩

/-- Witness for C10 at iteration 1 with interval 2: the base class raises
TypeError there, and an overriding evaluate returning a mapping lets the
same iteration complete. -/
theorem C10_witness :
    Algorithm.step 1 (some 2) [("loss", PyVal.pynat 3)] none =
      Except.error "TypeError: NoneType object is not iterable" ∧
    Algorithm.step 1 (some 2) [("loss", PyVal.pynat 3)] (some [("acc", PyVal.pynat 9)]) =
      Except.ok [("loss", PyVal.pynat 3), ("acc", PyVal.pynat 9)] := by
  have h := C10_stepNoneEvaluate 1 2 [("loss", PyVal.pynat 3)] (by decide) (by decide)
  exact ⟨h.1, (h.2 [("acc", PyVal.pynat 9)]).trans rfl⟩

/-- A dataset as the catalog returns it, exposing its ordered client ids. -/
structure Dataset where
  client_ids : List Nat
deriving DecidableEq

/-- Modelled from the spec: the client manager `Algorithm.setup` builds
(fllib/algorithms/client_manager.py is not under src/), holding the
dataset client ids and the client sub-config it was given. -/
structure ClientManagerState where
  client_ids : List Nat
  client_config : PyVal
deriving DecidableEq

/-- `Algorithm.setup`: when `config.dataset_config` is non-empty, resolves
the dataset through the catalog and then builds the client manager from
the dataset client ids plus the client sub-config; an empty dataset config
raises ValueError.  `DatasetCatalog.get_dataset` is not under src/, so the
catalog enters as a function argument. -/
def Algorithm.setup (catalog : List (String × PyVal) → Dataset)
    (dataset_config : List (String × PyVal)) (client_config : PyVal) :
    Except String (Dataset × ClientManagerState) :=
  if 0 < dataset_config.length then
    Except.ok (catalog dataset_config,
      ⟨(catalog dataset_config).client_ids, client_config⟩)
  else
    Except.error "Dataset config must be provided"

/-- Claim C6: `Algorithm.setup` raises the configuration error exactly when
the config supplies no dataset configuration; otherwise it resolves the
dataset from the dataset catalog and constructs the client manager from
that dataset's client ids plus the client sub-config. -/
theorem C6_setup (catalog : List (String × PyVal) → Dataset)
    (dataset_config : List (String × PyVal)) (client_config : PyVal) :
    (Algorithm.setup catalog dataset_config client_config =
        Except.error "Dataset config must be provided" ↔ dataset_config = []) ∧
    (dataset_config ≠ [] →
      Algorithm.setup catalog dataset_config client_config =
        Except.ok (catalog dataset_config,
          ⟨(catalog dataset_config).client_ids, client_config⟩)) := by
  cases dataset_config with
  | nil => simp [Algorithm.setup]
  | cons p ps => simp [Algorithm.setup]

/-- A concrete dataset catalog for the C6 witness: every config resolves to
a dataset with three clients. -/
def catalogC6 : List (String × PyVal) → Dataset := fun _ => ⟨[0, 1, 2]⟩

/-- Witness for C6: a non-empty dataset config makes setup succeed with the
client manager built over the dataset client ids; an empty one raises. -/
theorem C6_witness :
    Algorithm.setup catalogC6 [("custom_dataset", PyVal.pystr "simple")] PyVal.pynone =
      Except.ok (⟨[0, 1, 2]⟩, ⟨[0, 1, 2], PyVal.pynone⟩) ∧
    Algorithm.setup catalogC6 [] PyVal.pynone =
      Except.error "Dataset config must be provided" := by
  have h := C6_setup catalogC6 [("custom_dataset", PyVal.pystr "simple")] PyVal.pynone
  have h0 := C6_setup catalogC6 [] PyVal.pynone
  exact ⟨(h.2 (by decide)).trans rfl, h0.1.mpr rfl⟩

/-- Whether a path string already ends in the separator. -/
def endsWithSep (s : String) : Bool :=
  match s.data.getLast? with
  | some c => c == '/'
  | none => false

/-- `os.path.join(dir, name)` for a relative `name`: appended below the
directory, with a separator inserted unless one is already there. -/
def pathJoin (dir name : String) : String :=
  if dir = "" then name
  else if endsWithSep dir then dir ++ name
  else dir ++ "/" ++ name

/-- `Algorithm.__getstate__`: the current state of the Algorithm as a
mapping, holding the config under key "config". -/
def Algorithm.getstate (config : AlgorithmConfig) : List (String × AlgorithmConfig) :=
  [("config", config)]

/-- `Algorithm.save_checkpoint`: computes the state via `__getstate__`,
writes it (pickled) to the single file `algorithm_state.pkl` inside the
caller-supplied directory, and returns the directory path.  The
file-system effect is modelled as the (path, content) pair alongside the
returned path. -/
def Algorithm.save_checkpoint (config : AlgorithmConfig) (checkpoint_dir : String) :
    (String × List (String × AlgorithmConfig)) × String :=
  ((pathJoin checkpoint_dir "algorithm_state.pkl", Algorithm.getstate config), checkpoint_dir)

/-- Claim C7: for every caller-supplied directory (non-empty and without a
trailing separator), `save_checkpoint` writes a single serialized file
named `algorithm_state.pkl` directly inside that directory, whose content
is a mapping binding the key "config" to the algorithm config, and it
returns a path (the directory itself). -/
theorem C7_saveCheckpoint (config : AlgorithmConfig) (d : String)
    (h1 : d ≠ "") (h2 : endsWithSep d = false) :
    (Algorithm.save_checkpoint config d).1.1 = d ++ "/" ++ "algorithm_state.pkl" ∧
    getEntry (Algorithm.save_checkpoint config d).1.2 "config" = some config ∧
    (Algorithm.save_checkpoint config d).2 = d := by
  refine ⟨?_, rfl, rfl⟩
  simp [Algorithm.save_checkpoint, pathJoin, h1, h2]

/-- Witness for C7 at a concrete directory and an empty default config. -/
theorem C7_witness :
    (Algorithm.save_checkpoint ⟨[], false⟩ "/tmp/ckpt").1.1 =
      "/tmp/ckpt/algorithm_state.pkl" ∧
    getEntry (Algorithm.save_checkpoint ⟨[], false⟩ "/tmp/ckpt").1.2 "config" =
      some ⟨[], false⟩ ∧
    (Algorithm.save_checkpoint ⟨[], false⟩ "/tmp/ckpt").2 = "/tmp/ckpt" := by
  have h := C7_saveCheckpoint ⟨[], false⟩ "/tmp/ckpt" (by decide) (by decide)
  exact ⟨h.1.trans (by decide), h.2.1, h.2.2⟩

/-- Reading `cf[key]` where a number is expected: KeyError when the key is
absent, TypeError when the value is not a number. -/
def getNatEntry (d : List (String × PyVal)) (k : String) : Except String Nat :=
  match getEntry d k with
  | some (PyVal.pynat n) => Except.ok n
  | some _ => Except.error ("TypeError: " ++ k)
  | none => Except.error ("KeyError: " ++ k)

/-- Reading `cf[key]` where a boolean is expected. -/
def getBoolEntry (d : List (String × PyVal)) (k : String) : Except String Bool :=
  match getEntry d k with
  | some (PyVal.pybool b) => Except.ok b
  | some _ => Except.error ("TypeError: " ++ k)
  | none => Except.error ("KeyError: " ++ k)

/-- Reading `cf[key]` where a resource dict is expected. -/
def getResEntry (d : List (String × PyVal)) (k : String) : Except String (List (String × Nat)) :=
  match getEntry d k with
  | some (PyVal.pyres m) => Except.ok m
  | some _ => Except.error ("TypeError: " ++ k)
  | none => Except.error ("KeyError: " ++ k)

/-- One resource bundle: a mapping from resource names to counts. -/
abbrev Bundle := List (String × Nat)

/-- The placement request handed to the external scheduler: the bundle
list plus the placement strategy. -/
structure PlacementGroupFactory where
  bundles : List Bundle
  strategy : PyVal
deriving DecidableEq

/-- `Algorithm.default_resource_request`: merges the caller config over the
defaults (`cf = dict(cls.get_default_config(), **config)`; the default
config participates as a plain options dict, modelled from the spec),
builds one driver bundle from `num_cpus_for_driver` and
`num_gpus_for_driver` (GPU forced to 0 under `_fake_gpus`), then one
bundle per remote worker from `num_cpus_per_worker` and
`num_gpus_per_worker` merged with `custom_resources_per_worker`, and
returns them with the strategy `config.get("placement_strategy", "PACK")`
read from the caller config. -/
def Algorithm.default_resource_request (defaultCfg config : List (String × PyVal)) :
    Except String PlacementGroupFactory :=
  let cf := dictMerge defaultCfg config
  match getNatEntry cf "num_cpus_for_driver" with
  | Except.error e => Except.error e
  | Except.ok cpuD =>
  match getBoolEntry cf "_fake_gpus" with
  | Except.error e => Except.error e
  | Except.ok fake =>
  match (if fake then Except.ok 0 else getNatEntry cf "num_gpus_for_driver") with
  | Except.error e => Except.error e
  | Except.ok gpuD =>
  match getNatEntry cf "num_cpus_per_worker" with
  | Except.error e => Except.error e
  | Except.ok cpuW =>
  match getNatEntry cf "num_gpus_per_worker" with
  | Except.error e => Except.error e
  | Except.ok gpuW =>
  match getResEntry cf "custom_resources_per_worker" with
  | Except.error e => Except.error e
  | Except.ok custom =>
  match getNatEntry cf "num_remote_workers" with
  | Except.error e => Except.error e
  | Except.ok n =>
    Except.ok ⟨[("CPU", cpuD), ("GPU", gpuD)] ::
        List.replicate n (dictMerge [("CPU", cpuW), ("GPU", gpuW)] custom),
      (getEntry config "placement_strategy").getD (PyVal.pystr "PACK")⟩

/-- A complete default options dict carrying one custom per-worker
resource, used by the C8 counterexample and witness. -/
def defaultCfgC8 : List (String × PyVal) :=
  [("num_cpus_for_driver", PyVal.pynat 1), ("_fake_gpus", PyVal.pybool false),
   ("num_gpus_for_driver", PyVal.pynat 1), ("num_cpus_per_worker", PyVal.pynat 1),
   ("num_gpus_per_worker", PyVal.pynat 0),
   ("custom_resources_per_worker", PyVal.pyres [("accelerator", 1)]),
   ("num_remote_workers", PyVal.pynat 2)]

/-- Claim C8, counterexample: with custom per-worker resource
"accelerator", the request has the driver-then-workers shape the claim
describes, but the driver bundle carries no custom resource — only the
remote worker bundles do — so the claim that each bundle is annotated with
custom resources fails on the first bundle. -/
theorem C8_cex :
    Algorithm.default_resource_request defaultCfgC8 [] =
      Except.ok ⟨[[("CPU", 1), ("GPU", 1)],
                  [("CPU", 1), ("GPU", 0), ("accelerator", 1)],
                  [("CPU", 1), ("GPU", 0), ("accelerator", 1)]], PyVal.pystr "PACK"⟩ ∧
    getEntry [("CPU", 1), ("GPU", 1)] "accelerator" = none :=
  ⟨rfl, rfl⟩

/-- Claim C8, amended: whenever the merged options supply the driver and
per-worker resource settings, the placement request is exactly one driver
bundle (its CPU count, and its GPU count forced to 0 under `_fake_gpus`)
followed by `num_remote_workers` identical remote bundles, each remote
bundle holding CPU and GPU counts together with the custom per-worker
resources, so the bundle list has 1 + num_remote_workers entries; the
placement strategy is the caller config placement_strategy, defaulting to
"PACK". -/
theorem C8_amended_resourceRequest (defaultCfg config : List (String × PyVal))
    (cpuD gpuD cpuW gpuW n : Nat) (fake : Bool) (custom : List (String × Nat))
    (h1 : getNatEntry (dictMerge defaultCfg config) "num_cpus_for_driver" = Except.ok cpuD)
    (h2 : getBoolEntry (dictMerge defaultCfg config) "_fake_gpus" = Except.ok fake)
    (h3 : getNatEntry (dictMerge defaultCfg config) "num_gpus_for_driver" = Except.ok gpuD)
    (h4 : getNatEntry (dictMerge defaultCfg config) "num_cpus_per_worker" = Except.ok cpuW)
    (h5 : getNatEntry (dictMerge defaultCfg config) "num_gpus_per_worker" = Except.ok gpuW)
    (h6 : getResEntry (dictMerge defaultCfg config) "custom_resources_per_worker" =
      Except.ok custom)
    (h7 : getNatEntry (dictMerge defaultCfg config) "num_remote_workers" = Except.ok n) :
    Algorithm.default_resource_request defaultCfg config =
      Except.ok ⟨[("CPU", cpuD), ("GPU", if fake then 0 else gpuD)] ::
          List.replicate n (dictMerge [("CPU", cpuW), ("GPU", gpuW)] custom),
        (getEntry config "placement_strategy").getD (PyVal.pystr "PACK")⟩ ∧
    ([("CPU", cpuD), ("GPU", if fake then 0 else gpuD)] ::
        List.replicate n (dictMerge [("CPU", cpuW), ("GPU", gpuW)] custom)).length =
      1 + n := by
  constructor
  · cases fake <;>
      simp [Algorithm.default_resource_request, h1, h2, h3, h4, h5, h6, h7]
  · simp
    omega

/-- Witness for the amended C8 theorem at concrete dicts, with a
caller-chosen placement strategy overriding the "PACK" default. -/
theorem C8_witness :
    Algorithm.default_resource_request defaultCfgC8
        [("placement_strategy", PyVal.pystr "SPREAD")] =
      Except.ok ⟨[[("CPU", 1), ("GPU", 1)],
                  [("CPU", 1), ("GPU", 0), ("accelerator", 1)],
                  [("CPU", 1), ("GPU", 0), ("accelerator", 1)]], PyVal.pystr "SPREAD"⟩ := by
  have h := C8_amended_resourceRequest defaultCfgC8
      [("placement_strategy", PyVal.pystr "SPREAD")] 1 1 1 0 2 false [("accelerator", 1)]
      rfl rfl rfl rfl rfl rfl rfl
  exact h.1.trans rfl
